import Mathlib

/-!
Shallow embedding of the file-level three-way merge core
(`mercurial/filemerge.py`) and proofs about its behaviour.

Conventions of the embedding:
* Python integers are `Int`; merge statuses are the integers returned by the
  simple-merge primitive or external tools (`0` means clean).
* File contents are `String`; flag strings are `String` (`"l"` marks symlinks).
* Fallible code returns `Except`; each distinct raised exception class is a
  constructor of an error type.
* External collaborators (the simple-merge primitive, the capability check,
  the config/UI facade, process execution) enter as explicit parameters, and
  observable side effects (backup creation/removal, temp files, warnings) are
  recorded in explicit trace structures.
-/

namespace Filemerge

/-! ### Python truthiness

`_iabort` branches on the truthiness of the value returned by `_imerge`,
which is the tuple `(True, r, False)` produced by `_merge`
(`return True, r, False`).  We model just enough of Python's value model to
express truthiness of such a value: a bool is its own truth value, an int is
truthy iff non-zero, `None` is falsy, and a three-element tuple is truthy
because it is non-empty. -/

inductive PyVal where
  | pyBool (b : Bool)
  | pyInt (n : Int)
  | pyNone
  | pyTriple (a b c : PyVal)
deriving DecidableEq

def PyVal.truthy : PyVal → Bool
  | .pyBool b => b
  | .pyInt n => n != 0
  | .pyNone => false
  | .pyTriple _ _ _ => true

/-- The value `_merge` (and hence `_imerge`) returns: `True, r, False`. -/
def mergeRetval (r : Int) : PyVal :=
  .pyTriple (.pyBool true) (.pyInt r) (.pyBool false)

/-- Possible outcomes of `_iabort`. -/
inductive AbortOutcome where
  | abortNotInMemory      -- error.Abort: ":abort only works with in-memory merge"
  | abortMergeToolError   -- error.AbortMergeToolError
  | returned (v : PyVal)  -- normal return of the `_imerge` result
deriving DecidableEq

/-- `_iabort`: requires an in-memory context, runs `_imerge`, and raises
`AbortMergeToolError` when the result `res` is truthy (`if res:`).
`mergeStatus` is the status the underlying simple merge reports. -/
def _iabort (inmemory : Bool) (mergeStatus : Int) : AbortOutcome :=
  if !inmemory then .abortNotInMemory
  else
    let res := mergeRetval mergeStatus
    if res.truthy then .abortMergeToolError else .returned res

/-! ### File contexts

`absentfilectx` answers `flags() = ""`, `isbinary() = False`,
`size() = None`, `data() = None`, `isabsent() = True`.  A present file
context carries its flags, contents and binariness. -/

inductive filectx where
  | absent
  | present (flagsStr : String) (contents : String) (binary : Bool)
deriving DecidableEq

def filectx.flags : filectx → String
  | .absent => ""
  | .present f _ _ => f

def filectx.isbinary : filectx → Bool
  | .absent => false
  | .present _ _ b => b

def filectx.isabsent : filectx → Bool
  | .absent => true
  | .present _ _ _ => false

def filectx.size : filectx → Option Nat
  | .absent => none
  | .present _ d _ => some d.length

def filectx.data : filectx → Option String
  | .absent => none
  | .present _ d _ => some d

/-- The orchestrator's property probe:
`binary = fcd.isbinary() or fco.isbinary() or fca.isbinary()`. -/
def probeBinary (fcd fco fca : filectx) : Bool :=
  fcd.isbinary || fco.isbinary || fca.isbinary

/-- The orchestrator's property probe:
`symlink = "l" in fcd.flags() + fco.flags()` (single-character membership in
the concatenated flag strings). -/
def probeSymlink (fcd fco : filectx) : Bool :=
  (fcd.flags.toList ++ fco.flags.toList).contains 'l'

/-! ### Tool registry -/

/-- The built-in internal merge strategies, one constructor per registered
function. -/
inductive InternalTool where
  | iabort | iprompt | ilocal | iother | ifail | iunion | imerge | imerge3
  | imergelocal | imergeother | itagmerge | idump | iforcedump
deriving DecidableEq

/-- The registrar table built by the `@internaltool(name, ...)` decorators,
in source order. -/
def builtinTable : List (String × InternalTool) :=
  [("abort", .iabort), ("prompt", .iprompt), ("local", .ilocal),
   ("other", .iother), ("fail", .ifail), ("union", .iunion),
   ("merge", .imerge), ("merge3", .imerge3), ("merge-local", .imergelocal),
   ("merge-other", .imergeother), ("tagmerge", .itagmerge),
   ("dump", .idump), ("forcedump", .iforcedump)]

/-- `loadinternalmerge`: for each registered `name`, writes the keys
`":" + name` and `"internal:" + name` into the `internals` mapping. -/
def loadinternalmerge (table : List (String × InternalTool)) :
    List (String × InternalTool) :=
  table.foldl (fun acc p => acc ++ [(":" ++ p.1, p.2), ("internal:" ++ p.1, p.2)]) []

/-- The `internals` registry after the module-level
`loadinternalmerge(None, None, internaltool)` call. -/
def internals : List (String × InternalTool) :=
  loadinternalmerge builtinTable

/-! ### The `other` strategy

`_iother`: if the other side is absent, remove the destination; otherwise
write other's data and flags to the destination.  The destination is
modelled as `Option (contents × flags)` (`none` = file removed).  Returns
the new destination together with `(status, deleted)`. -/

def _iother (dest : Option (String × String)) (fco : filectx) :
    Option (String × String) × Int × Bool :=
  match fco with
  | .absent => (none, 0, true)
  | .present f d _ => (some (d, f), 0, false)

/-! ### External driver (`_xmerge`) -/

/-- Observable side effects of one `_xmerge` invocation. -/
structure XTrace where
  warned : Bool         -- "warning: %s cannot merge change/delete conflict"
  tempsCreated : Bool   -- `_maketempfiles` ran
  commandRun : Bool     -- `ui.system(cmd, ...)` ran
  tempsUnlinked : Bool  -- the `finally` block unlinked both temp files
deriving DecidableEq

/-- `_xmerge`: on a change/delete conflict (either side absent) it warns and
returns `(False, 1, None)` before creating temp files or running the
command; otherwise it creates the temp files, runs the external command,
returns its exit code, and unlinks the temp files. -/
def _xmerge (fcdAbsent fcoAbsent : Bool) (exitCode : Int) :
    (Bool × Int × Option Bool) × XTrace :=
  if fcdAbsent || fcoAbsent then
    ((false, 1, none), ⟨true, false, false, false⟩)
  else
    ((true, exitCode, some false), ⟨false, true, true, true⟩)

/-! ### Premerge driver (`_premerge`) -/

/-- The parsed `merge-tools.<tool>.premerge` configuration value: a boolean,
one of the strings `"keep"` / `"keep-merge3"`, or any other string (which
raises a configuration error). -/
inductive PremergeCfg where
  | pbool (b : Bool)
  | keep
  | keepMerge3
  | invalid
deriving DecidableEq

/-- Truthiness of the parsed premerge config (`if premerge:`): `True`,
`"keep"` and `"keep-merge3"` are truthy; `False` is falsy.  (`invalid` is
rejected before this test is reached.) -/
def PremergeCfg.enabled : PremergeCfg → Bool
  | .pbool b => b
  | .keep => true
  | .keepMerge3 => true
  | .invalid => false

inductive CfgError where
  | configError
deriving DecidableEq

/-- Result of one `_premerge` run, with its observable effects. -/
structure PremergeRes where
  status : Int              -- the returned value (0 = premerge clean)
  ranSimplemerge : Bool     -- `simplemerge.simplemerge` was invoked
  restoredBackup : Bool     -- `_restorebackup(fcd, back)` was invoked
  labelsUsed : List String  -- the labels passed to simplemerge
deriving DecidableEq

/-- `_premerge`: skip (status 1) when symlink or either side is absent;
raise on an invalid premerge config; when enabled, run simplemerge (in
`keep-merge3` mode first defaulting/extending the labels with `"base"`),
return 0 when it is clean, and on conflicts restore the destination from
the backup unless the policy is `keep`/`keep-merge3`, returning 1.
`smStatus` is the status the simple-merge primitive reports. -/
def _premerge (symlink fcdAbsent fcoAbsent : Bool) (cfg : PremergeCfg)
    (labels : List String) (smStatus : Int) : Except CfgError PremergeRes :=
  if symlink || fcdAbsent || fcoAbsent then
    .ok ⟨1, false, false, labels⟩
  else if cfg = .invalid then
    .error .configError
  else if cfg.enabled then
    let labels1 :=
      if cfg = .keepMerge3 then
        let l0 := if labels.isEmpty then ["local", "other"] else labels
        if l0.length < 3 then l0 ++ ["base"] else l0
      else labels
    if smStatus == 0 then .ok ⟨0, true, false, labels1⟩
    else if cfg = .pbool true then .ok ⟨1, true, true, labels1⟩
    else .ok ⟨1, true, false, labels1⟩
  else
    .ok ⟨1, false, false, labels⟩

/-! ### Post-check (`_check`) -/

/-- Line splitting on `'\n'`, mirroring how `re.MULTILINE` anchors `^`/`$`
at the start/end of each `'\n'`-separated line. -/
def splitLinesAux : List Char → List Char → List (List Char)
  | acc, [] => [acc.reverse]
  | acc, c :: cs =>
    if c = '\n' then acc.reverse :: splitLinesAux [] cs
    else splitLinesAux (c :: acc) cs

def splitLines (s : String) : List (List Char) :=
  splitLinesAux [] s.toList

def listStartsWith : List Char → List Char → Bool
  | [], _ => true
  | _ :: _, [] => false
  | p :: ps, c :: cs => p == c && listStartsWith ps cs

/-- One line matches `^(<<<<<<< .*|=======|>>>>>>> .*)$`: it starts with
`"<<<<<<< "`, is exactly `"======="`, or starts with `">>>>>>> "` (a line
holds no `'\n'`, so `.*` matches the rest of it). -/
def isMarkerLine (l : List Char) : Bool :=
  listStartsWith "<<<<<<< ".toList l ||
  l == "=======".toList ||
  listStartsWith ">>>>>>> ".toList l

/-- `re.search("^(<<<<<<< .*|=======|>>>>>>> .*)$", data, re.MULTILINE)`
succeeds iff some line of `data` is a conflict-marker line. -/
def hasConflictMarker (s : String) : Bool :=
  (splitLines s).any isMarkerLine

/-- The per-tool check configuration consumed by `_check`. -/
structure CheckCfg where
  checkconflicts : Bool
  checkList : List String
  checkchanged : Bool
deriving DecidableEq

/-- `_check`: the conflict-marker scan runs only when the incoming status
`r0` is 0 and the conflicts check is enabled, forcing 1 on a match; the
`prompt` check can force 1; the `changed` check (skipped when the user was
already prompted) can force 1 when the destination equals the backup.
`promptNo` / `changedPromptNo` are the user's negative answers to the two
prompts; `destEqBackup` is `not fcd.cmp(back)`. -/
def _check (r0 : Int) (cfg : CheckCfg) (destData : String) (backSome : Bool)
    (destEqBackup : Bool) (promptNo : Bool) (changedPromptNo : Bool) : Int :=
  let r1 :=
    if r0 == 0 && (cfg.checkconflicts || cfg.checkList.contains "conflicts")
        && hasConflictMarker destData then 1 else r0
  let checked := cfg.checkList.contains "prompt"
  let r2 := if checked && promptNo then 1 else r1
  if r2 == 0 && !checked
      && (cfg.checkchanged || cfg.checkList.contains "changed")
      && backSome && destEqBackup && changedPromptNo then 1 else r2

/-- A destination text containing all three conflict-marker line forms. -/
def markerText : String :=
  "<<<<<<< local\none\n=======\ntwo\n>>>>>>> other\n"

/-! ### Tool picker, priority-pool step (`_picktool`, lines after the
pattern step)

The pool step reads the deduplicated `merge-tools` tool names with their
priorities (`toolcfg`) and the disabled subset, sorts the enabled tools by
the Python key `(-priority, name)` ascending, handles `ui.merge`, appends
the legacy `"hgmerge"`, and scans the list with the capability check.  The
capability check itself (`check`) and the tool-path resolution are external
and enter as a parameter / are dropped (only the chosen name matters
here). -/

/-- Lexicographic comparison of characters lists (Python string `<=`). -/
def charListLe : List Char → List Char → Bool
  | [], _ => true
  | _ :: _, [] => false
  | a :: as, b :: bs => a < b || (a == b && charListLe as bs)

/-- Python tuple comparison on `(-priority, name)` pairs. -/
def pairLe (a b : Int × String) : Bool :=
  a.1 < b.1 || (a.1 == b.1 && charListLe a.2.toList b.2.toList)

def insertPair (x : Int × String) : List (Int × String) → List (Int × String)
  | [] => [x]
  | y :: ys => if pairLe x y then x :: y :: ys else y :: insertPair x ys

/-- Ascending sort by `(-priority, name)`, as `sorted(...)` produces. -/
def sortPairs : List (Int × String) → List (Int × String)
  | [] => []
  | x :: xs => insertPair x (sortPairs xs)

/-- `names = tools.keys()`. -/
def poolNames (toolcfg : List (String × Int)) : List String :=
  toolcfg.map Prod.fst

/-- The priority-sorted enabled tool names:
`sorted([(-p, tool) for tool, p in tools.items() if tool not in disabled])`,
projected to the names. -/
def poolSorted (toolcfg : List (String × Int)) (disabled : List String) :
    List String :=
  (sortPairs ((toolcfg.filter (fun t => !(disabled.contains t.1))).map
    (fun t => (-t.2, t.1)))).map Prod.snd

/-- How the pool step produced its answer. -/
inductive PoolOutcome where
  | direct (tool : String)    -- returned without any capability check
  | fromList (tool : String)  -- first list entry surviving the check
  | exhausted                 -- fall through to the final fallback
deriving DecidableEq

/-- The scan `for p, t in tools: if check(t, ...): return t`. -/
def firstSurvivor (check : String → Bool) : List String → PoolOutcome
  | [] => .exhausted
  | t :: ts => if check t then .fromList t else firstSurvivor check ts

/-- The priority-pool step of `_picktool` as the source writes it: when
`ui.merge` is configured and its value is not a known tool name and this is
not a change/delete conflict, the value is returned directly; otherwise the
value is inserted at the front of the sorted list; `"hgmerge"` is appended;
the first entry surviving the capability check wins. -/
def _picktoolPool (toolcfg : List (String × Int)) (disabled : List String)
    (uimerge : Option String) (changedelete : Bool) (check : String → Bool) :
    PoolOutcome :=
  let names := poolNames toolcfg
  let sorted := poolSorted toolcfg disabled
  match uimerge with
  | some u =>
    if !(names.contains u) && !changedelete then
      .direct u
    else
      firstSurvivor check (u :: (sorted ++ ["hgmerge"]))
  | none => firstSurvivor check (sorted ++ ["hgmerge"])

/-- Modelled from the claim's words, for comparison with `_picktoolPool`:
the configured `ui.merge` tool is prepended to the priority-sorted
candidate list exactly when it is a known tool name or `change_delete` is
false, `"hgmerge"` is appended after all candidates, and the first
candidate surviving the capability check is returned. -/
def picktoolPoolClaim (toolcfg : List (String × Int)) (disabled : List String)
    (uimerge : Option String) (changedelete : Bool) (check : String → Bool) :
    PoolOutcome :=
  let names := poolNames toolcfg
  let sorted := poolSorted toolcfg disabled
  let front :=
    match uimerge with
    | some u =>
      if names.contains u || !changedelete then u :: sorted else sorted
    | none => sorted
  firstSurvivor check (front ++ ["hgmerge"])

/-! ### Orchestrator (`_filemerge`)

The orchestrator is embedded over abstract sub-components: the picked
tool's metadata (`mergetype`, presence of `precheck` / `onfailure`), the
strategy's result (a value or a raised error), the premerge driver's
status, and the post-check as a status transformer.  The observable
actions — picking a tool, invoking a strategy, creating / writing /
removing the backup — are recorded in a trace. -/

inductive MergeType where
  | nomerge | mergeonly | fullmerge
deriving DecidableEq

inductive MergeErr where
  | inMemoryConflict      -- error.InMemoryMergeConflictsError
  | interventionRequired  -- error.InterventionRequired (merge halted)
  | strategyError         -- any error raised inside the strategy itself
deriving DecidableEq

/-- The triple `_filemerge` returns: completed, status (`none` encodes
Python `None`), deleted (`none` encodes Python `None`). -/
structure Outcome where
  completed : Bool
  status : Option Int
  deleted : Option Bool
deriving DecidableEq

/-- Observable actions of one `_filemerge` run. -/
structure Trace where
  pickedTool : Bool       -- `_picktool` ran
  strategyInvoked : Bool  -- a strategy / the premerge driver ran
  backupObject : Bool     -- `back` is not `None`
  backupWritten : Bool    -- the backup file was written this run
  backupRemoved : Bool    -- `back.remove()` ran in the `finally` block
deriving DecidableEq

/-- Inputs and abstracted collaborators of one `_filemerge` run. -/
structure FMInput where
  contentsDiffer : Bool   -- `fco.cmp(fcd)`
  premergeFlag : Bool     -- the `premerge` argument
  mergetype : MergeType   -- of the picked tool
  hasPrecheck : Bool
  precheckOk : Bool
  hasOnfailure : Bool
  inmemory : Bool         -- `wctx.isinmemory()`
  onFailureHalts : Bool   -- `merge.on-failure` leads `_onfilemergefailure` to raise
  fcdAbsent : Bool        -- `fcd.isabsent()` (no backup for absent files)
  premergeStatus : Int    -- status of `_premerge` when it runs
  nomergeStatus : Int     -- status returned by a no-merge strategy
  nomergeDeleted : Bool   -- deleted flag returned by a no-merge strategy
  funcResult : Except MergeErr (Bool × Int × Option Bool)
                          -- `(needcheck, r, deleted)` of the main strategy
  checkFnR : Int → Int    -- `_check` as a transformer of the status

/-- The `try` block of `_filemerge` in the full/merge-only path: the
premerge-pass return (`return not r, r, False`) or the main strategy with
post-check and failure handling.  Produces the returned/raised result
together with the value of the local variable `r` when control leaves the
block — the value the `finally` clause will read. -/
def fmTryBody (inp : FMInput) : Except MergeErr Outcome × Int :=
  if inp.premergeFlag && (inp.mergetype == .fullmerge) then
    let r := inp.premergeStatus
    (.ok ⟨r == 0, some r, some false⟩, r)
  else
    match inp.funcResult with
    | .error e => (.error e, 1)
    | .ok (needcheck, r0, del) =>
      let r := if needcheck then inp.checkFnR r0 else r0
      if r == 0 then (.ok ⟨true, some r, del⟩, r)
      else if inp.hasOnfailure && inp.inmemory then
        (.error .inMemoryConflict, r)
      else if inp.onFailureHalts then (.error .interventionRequired, r)
      else (.ok ⟨true, some r, del⟩, r)

/-- `_filemerge`: the identical-contents shortcut, the no-merge dispatch,
the precheck gate, backup creation, the `try` block (`fmTryBody`), and the
`finally` clause removing the backup exactly when the status variable `r`
is 0 at exit and a backup object exists
(`if not r and back is not None: back.remove()`). -/
def _filemerge (inp : FMInput) : Except MergeErr Outcome × Trace :=
  if inp.contentsDiffer = false then
    (.ok ⟨true, none, some false⟩, ⟨false, false, false, false, false⟩)
  else if inp.mergetype = .nomerge then
    (.ok ⟨true, some inp.nomergeStatus, some inp.nomergeDeleted⟩,
      ⟨true, true, false, false, false⟩)
  else if inp.hasPrecheck = true ∧ inp.precheckOk = false then
    if inp.hasOnfailure = true ∧ inp.inmemory = true then
      (.error .inMemoryConflict, ⟨true, false, false, false, false⟩)
    else
      (.ok ⟨true, some 1, some false⟩, ⟨true, false, false, false, false⟩)
  else
    let backObj := !inp.fcdAbsent
    let backWr := backObj && inp.premergeFlag
    let body := fmTryBody inp
    (body.1, ⟨true, true, backObj, backWr, backObj && (body.2 == 0)⟩)

/-! ### Theorems -/

/-- C1: in an in-memory context, `_iabort` raises `AbortMergeToolError`
for every merge status — in particular for status 0 (clean), where the
specified behaviour is to return normally.  The cause is `if res:` testing
the truthiness of the tuple `(True, r, False)`, which is always truthy,
instead of the status component `r`. -/
theorem abort_raises_even_on_clean_merge :
    _iabort true 0 = AbortOutcome.abortMergeToolError ∧
    ∀ r : Int, _iabort true r = AbortOutcome.abortMergeToolError :=
  ⟨rfl, fun _ => rfl⟩

/-- C2 counterexample: after registry population, the bare name `"merge"`
is not a key of the registry, while `":merge"` is — so the claim that the
bare name, `":name"` and `"internal:name"` all resolve to the same entry is
false. -/
theorem registry_bare_name_missing :
    internals.lookup "merge" = none ∧
    internals.lookup ":merge" = some InternalTool.imerge := by
  decide

/-- C2 (amended): after registry population, for every built-in strategy
`name`, lookups under `":" ++ name` and `"internal:" ++ name` resolve to the
same registry entry, and the bare `name` is not a key at all. -/
theorem registry_colon_and_internal_alias :
    ∀ p ∈ builtinTable,
      internals.lookup p.1 = none ∧
      internals.lookup (":" ++ p.1) = some p.2 ∧
      internals.lookup ("internal:" ++ p.1) = some p.2 := by
  decide

/-- C2 witness: the amended aliasing statement instantiated at the `merge`
strategy. -/
theorem registry_colon_and_internal_alias_witness :
    internals.lookup "merge" = none ∧
    internals.lookup ":merge" = some InternalTool.imerge ∧
    internals.lookup "internal:merge" = some InternalTool.imerge :=
  registry_colon_and_internal_alias ("merge", InternalTool.imerge) (by decide)

/-- C7: the `other` strategy writes exactly other's bytes and flags and
reports `(0, deleted := false)` when the other side is present, and removes
the destination reporting `(0, deleted := true)` when the other side is
absent. -/
theorem other_strategy_spec :
    (∀ dest flagsStr contents b,
      _iother dest (.present flagsStr contents b) =
        (some (contents, flagsStr), 0, false)) ∧
    (∀ dest, _iother dest .absent = (none, 0, true)) :=
  ⟨fun _ _ _ _ => rfl, fun _ => rfl⟩

/-- C10: an absent file version reports empty flags, non-binary, no size and
no data; consequently the orchestrator's binary/symlink probes over a triple
(or pair) of sides with one absent reduce to the probes over the present
sides only. -/
theorem absent_file_neutral :
    filectx.flags .absent = "" ∧
    filectx.isbinary .absent = false ∧
    filectx.size .absent = none ∧
    filectx.data .absent = none ∧
    (∀ fco fca, probeBinary .absent fco fca = (fco.isbinary || fca.isbinary)) ∧
    (∀ fcd fca, probeBinary fcd .absent fca = (fcd.isbinary || fca.isbinary)) ∧
    (∀ fcd fco, probeBinary fcd fco .absent = (fcd.isbinary || fco.isbinary)) ∧
    (∀ fco, probeSymlink .absent fco = fco.flags.toList.contains 'l') ∧
    (∀ fcd, probeSymlink fcd .absent = fcd.flags.toList.contains 'l') := by
  refine ⟨rfl, rfl, rfl, rfl, ?_, ?_, ?_, ?_, ?_⟩
  · intro fco fca; rfl
  · intro fcd fca; simp [probeBinary, filectx.isbinary]
  · intro fcd fco; simp [probeBinary, filectx.isbinary]
  · intro fco; rfl
  · intro fcd; simp [probeSymlink, filectx.flags]

/-- C9: on a change/delete conflict, the external driver never runs the
command and creates no temp files; it warns and returns
`(completed := false, status := 1, deleted := none)`, the deleted field
being `None` rather than a boolean. -/
theorem xmerge_changedelete (fcdAbsent fcoAbsent : Bool) (exitCode : Int)
    (h : (fcdAbsent || fcoAbsent) = true) :
    _xmerge fcdAbsent fcoAbsent exitCode =
      ((false, 1, none), ⟨true, false, false, false⟩) := by
  simp [_xmerge, h]

/-- C9 witness: the change/delete behaviour of `_xmerge` at a concrete
input (local side absent, external exit code 7). -/
theorem xmerge_changedelete_witness :
    _xmerge true false 7 = ((false, 1, none), ⟨true, false, false, false⟩) :=
  xmerge_changedelete true false 7 (by decide)

/-- C6: the premerge driver returns status 1 without invoking simple-merge
when the file is a symlink or either side is absent; when it invokes
simple-merge and the result is clean it returns 0; and when simple-merge
leaves conflicts and the policy is neither `keep` nor `keep-merge3`, it
restores the destination from backup and returns 1. -/
theorem premerge_driver_spec (symlink fcdAbsent fcoAbsent : Bool)
    (cfg : PremergeCfg) (labels : List String) (smStatus : Int) :
    ((symlink || fcdAbsent || fcoAbsent) = true →
      _premerge symlink fcdAbsent fcoAbsent cfg labels smStatus =
        .ok ⟨1, false, false, labels⟩) ∧
    ((symlink || fcdAbsent || fcoAbsent) = false → cfg.enabled = true →
      smStatus = 0 →
      ∃ ls, _premerge symlink fcdAbsent fcoAbsent cfg labels smStatus =
        .ok ⟨0, true, false, ls⟩) ∧
    ((symlink || fcdAbsent || fcoAbsent) = false → cfg.enabled = true →
      cfg ≠ .keep → cfg ≠ .keepMerge3 → smStatus ≠ 0 →
      _premerge symlink fcdAbsent fcoAbsent cfg labels smStatus =
        .ok ⟨1, true, true, labels⟩) := by
  refine ⟨?_, ?_, ?_⟩
  · intro h
    simp [_premerge, h]
  · intro h he hs
    cases cfg <;> simp_all [_premerge, PremergeCfg.enabled]
  · intro h he hk hk3 hs
    cases cfg with
    | pbool b =>
      cases b with
      | false => simp [PremergeCfg.enabled] at he
      | true =>
        simp_all [_premerge, PremergeCfg.enabled]
    | keep => exact absurd rfl hk
    | keepMerge3 => exact absurd rfl hk3
    | invalid => simp [PremergeCfg.enabled] at he

/-- C6 witness: the three premerge-driver properties at concrete inputs
(symlink skip; clean simple-merge; conflicting simple-merge with a plain
boolean policy, which restores the backup). -/
theorem premerge_driver_spec_witness :
    _premerge true false false (.pbool true) ["local", "other"] 0 =
      .ok ⟨1, false, false, ["local", "other"]⟩ ∧
    (∃ ls, _premerge false false false (.pbool true) ["local", "other"] 0 =
      .ok ⟨0, true, false, ls⟩) ∧
    _premerge false false false (.pbool true) ["local", "other"] 1 =
      .ok ⟨1, true, true, ["local", "other"]⟩ :=
  ⟨(premerge_driver_spec true false false (.pbool true) ["local", "other"] 0).1
      (by decide),
   (premerge_driver_spec false false false (.pbool true) ["local", "other"] 0).2.1
      (by decide) (by decide) rfl,
   (premerge_driver_spec false false false (.pbool true) ["local", "other"] 1).2.2
      (by decide) (by decide) (by decide) (by decide) (by decide)⟩

/-- C8 counterexample: with the conflicts check enabled and a destination
containing all three marker-line forms, an incoming status of 2 yields a
final status of 2, not 1 — the scan only runs when the incoming status is
0 (`if not r and ...`), so the claim that any marker-bearing destination
yields final status 1 is false. -/
theorem check_conflicts_claim_refuted :
    hasConflictMarker markerText = true ∧
    _check 2 ⟨true, [], false⟩ markerText false false false false ≠ 1 := by
  decide

/-- C8 (amended): with the conflicts check enabled and the `prompt` and
`changed` checks disabled, the post-check returns 1 exactly when the
incoming status is 0 and the destination contains a marker line, and
otherwise leaves the incoming status unchanged; a nonzero incoming status
skips the scan entirely. -/
theorem check_conflicts_scan (cfg : CheckCfg)
    (hcc : (cfg.checkconflicts || cfg.checkList.contains "conflicts") = true)
    (hp : cfg.checkList.contains "prompt" = false)
    (hch : cfg.checkchanged = false)
    (hcl : cfg.checkList.contains "changed" = false)
    (r0 : Int) (destData : String)
    (backSome destEqBackup promptNo changedPromptNo : Bool) :
    _check r0 cfg destData backSome destEqBackup promptNo changedPromptNo =
      if r0 == 0 && hasConflictMarker destData then 1 else r0 := by
  unfold _check
  rw [hcc, hp, hch, hcl]
  by_cases h0 : r0 == 0 <;> by_cases hm : hasConflictMarker destData <;>
    simp_all

/-- C8 witness: the amended scan statement at a concrete input (incoming
status 0, marker-bearing destination, conflicts check enabled). -/
theorem check_conflicts_scan_witness :
    _check 0 ⟨true, [], false⟩ markerText false false false false = 1 :=
  (check_conflicts_scan ⟨true, [], false⟩ (by decide) (by decide) rfl
      (by decide) 0 markerText false false false false).trans (by decide)

/-- C3 counterexample: with one known tool `kdiff3`, `ui.merge` set to the
unknown name `mymerge`, no change/delete conflict, and a capability check
that only `kdiff3` passes, the source returns `mymerge` directly (no
capability check at all), while the claim's reading — prepend, then take
the first survivor of the check — would return `kdiff3`. -/
theorem uimerge_pool_claim_refuted :
    _picktoolPool [("kdiff3", 0)] [] (some "mymerge") false
        (fun t => t == "kdiff3") ≠
      picktoolPoolClaim [("kdiff3", 0)] [] (some "mymerge") false
        (fun t => t == "kdiff3") := by
  decide

/-- C3 (amended): in the priority-pool step with `ui.merge` configured,
when the configured name is unknown and `change_delete` is false it is
returned directly, bypassing the capability check; in every other case
(known name, or change/delete) it is prepended at highest priority,
`"hgmerge"` is appended after all candidates, and the first candidate
surviving the capability check is returned. -/
theorem uimerge_pool_behavior (toolcfg : List (String × Int))
    (disabled : List String) (u : String) (changedelete : Bool)
    (check : String → Bool) :
    ((poolNames toolcfg).contains u = false → changedelete = false →
      _picktoolPool toolcfg disabled (some u) changedelete check =
        .direct u) ∧
    ((poolNames toolcfg).contains u = true ∨ changedelete = true →
      _picktoolPool toolcfg disabled (some u) changedelete check =
        firstSurvivor check
          (u :: (poolSorted toolcfg disabled ++ ["hgmerge"]))) := by
  constructor
  · intro hk hc
    unfold _picktoolPool
    dsimp only
    rw [hk, hc]
    rfl
  · intro h
    rcases h with hk | hc
    · unfold _picktoolPool
      dsimp only
      rw [hk]
      rfl
    · unfold _picktoolPool
      dsimp only
      rw [hc]
      simp

/-- C3 witness: both arms of the amended pool behaviour at concrete inputs
(the direct return for an unknown `ui.merge` without change/delete, and the
prepend-then-scan path for a change/delete conflict). -/
theorem uimerge_pool_behavior_witness :
    _picktoolPool [("kdiff3", 0)] [] (some "mymerge") false
        (fun _ => true) = .direct "mymerge" ∧
    _picktoolPool [("kdiff3", 0)] [] (some "mymerge") true
        (fun _ => true) = .fromList "mymerge" :=
  ⟨(uimerge_pool_behavior [("kdiff3", 0)] [] "mymerge" false
      (fun _ => true)).1 (by decide) rfl,
   ((uimerge_pool_behavior [("kdiff3", 0)] [] "mymerge" true
      (fun _ => true)).2 (Or.inr rfl)).trans (by decide)⟩

/-- The invariant relating a `try`-block result to the exit value of `r`:
a returned outcome carries exactly the status `r` holds at block exit, and
a raised error leaves `r` non-zero. -/
def StatusInv (b : Except MergeErr Outcome × Int) : Prop :=
  (∀ o, b.1 = Except.ok o → o.status = some b.2) ∧
  (∀ e, b.1 = Except.error e → b.2 ≠ 0)

theorem fmTryBody_status (inp : FMInput) : StatusInv (fmTryBody inp) := by
  unfold StatusInv fmTryBody
  repeat' split
  all_goals refine ⟨?_, ?_⟩
  all_goals intro x hx
  all_goals dsimp only at hx ⊢
  all_goals repeat' split at hx
  all_goals try simp at hx
  all_goals try subst hx
  all_goals simp_all

/-- A run result that is a normal return with clean status. -/
def isCleanOk : Except MergeErr Outcome → Bool
  | .ok o => o.status == some 0
  | .error _ => false

/-- C4: in every `_filemerge` run in which a backup object exists, the
backup file is removed exactly when the run returns normally with status 0
(including a clean premerge); a non-zero returned status or an error raised
by the strategy preserves the backup. -/
theorem backup_lifecycle (inp : FMInput)
    (hb : (_filemerge inp).2.backupObject = true) :
    (_filemerge inp).2.backupRemoved = isCleanOk (_filemerge inp).1 := by
  have hbody := fmTryBody_status inp
  by_cases h1 : inp.contentsDiffer = false
  · simp [_filemerge, h1] at hb
  · by_cases h2 : inp.mergetype = .nomerge
    · simp [_filemerge, h1, h2] at hb
    · by_cases h3 : inp.hasPrecheck = true ∧ inp.precheckOk = false
      · by_cases h4 : inp.hasOnfailure = true ∧ inp.inmemory = true
        · simp [_filemerge, h1, h2, h3, h4] at hb
        · simp [_filemerge, h1, h2, h3, h4] at hb
      · simp only [_filemerge, if_neg h1, if_neg h2, if_neg h3] at hb ⊢
        try dsimp only at hb ⊢
        rw [hb]
        cases hres : (fmTryBody inp).1 with
        | ok o =>
          have hstat := hbody.1 o hres
          simp [isCleanOk, hres, hstat]
        | error e =>
          have hne := hbody.2 e hres
          simp [isCleanOk, hres, hne]

/-- C4 witness: a clean premerge pass over an existing backup removes the
backup file. -/
theorem backup_lifecycle_witness :
    (_filemerge ⟨true, true, .fullmerge, false, true, true, false, false,
        false, 0, 0, false, .ok (true, 0, some false), fun r => r⟩).2.backupRemoved
      = true :=
  (backup_lifecycle ⟨true, true, .fullmerge, false, true, true, false, false,
      false, 0, 0, false, .ok (true, 0, some false), fun r => r⟩
    (by decide)).trans (by decide)

/-- C5: when the contents of the two sides are identical
(`other.cmp(local)` is false) the orchestrator returns
`(completed := true, status := none, deleted := false)` with no observable
action: no tool picked, no strategy run, no backup object or file, nothing
removed — the destination is untouched. -/
theorem identical_contents_shortcut (inp : FMInput)
    (h : inp.contentsDiffer = false) :
    _filemerge inp =
      (.ok ⟨true, none, some false⟩, ⟨false, false, false, false, false⟩) := by
  unfold _filemerge
  rw [h]
  rfl

/-- C5 witness: the shortcut at a concrete input with identical contents. -/
theorem identical_contents_shortcut_witness :
    _filemerge ⟨false, true, .fullmerge, false, true, true, false, false,
        false, 0, 0, false, .ok (true, 0, some false), fun r => r⟩ =
      (.ok ⟨true, none, some false⟩, ⟨false, false, false, false, false⟩) :=
  identical_contents_shortcut _ rfl

end Filemerge
